import Mathlib

/-!
Verification development for the light-rail next-train web client
(a single-page view in src/App.tsx).

The embedding below translates the data model, the station directory, the
search filter, the rendering of a schedule snapshot, and the view-controller
event loop (mount, selection change, periodic tick, fetch completion,
unmount) into Lean definitions, and proves or refutes the specified
properties about them.
-/

set_option maxHeartbeats 1000000

namespace LrtApp

/-- One scheduled departure record, mirroring the Route interface of the
source: train consist length, arrival/departure flag, bilingual destination,
bilingual display time, route number, and a stop flag (1 = stopped). -/
structure Route where
  train_length : Int
  arrival_departure : String
  dest_en : String
  dest_ch : String
  time_en : String
  time_ch : String
  route_no : String
  stop : Int
deriving DecidableEq, Repr

/-- One platform of the payload; route_list is optional in the upstream
JSON, mirroring the Platform interface of the source. -/
structure Platform where
  platform_id : Int
  route_list : Option (List Route)
deriving DecidableEq, Repr

/-- The decoded response body, mirroring the ApiResponse interface of the
source; platform_list is optional in the upstream JSON. -/
structure ApiResponse where
  status : Int
  system_time : String
  platform_list : Option (List Platform)
deriving DecidableEq, Repr

/-- The STATIONS record of the source, as the list of key-value pairs in
the order they are written in the object literal. -/
def STATIONS : List (String × String) :=
  [("1", "Tuen Mun Ferry Pier (屯門碼頭)"),
   ("10", "Melody Garden (美樂)"),
   ("15", "Butterfly (蝴蝶)"),
   ("20", "Light Rail Depot (輕鐵車廠)"),
   ("30", "Lung Mun (龍門)"),
   ("40", "Tsing Shan Tsuen (青山村)"),
   ("50", "Tsing Wun (青雲)"),
   ("60", "Kin On (建安)"),
   ("70", "Ho Tin (河田)"),
   ("75", "Choy Yee Bridge (蔡意橋)"),
   ("80", "Affluence (澤豐)"),
   ("90", "Tuen Mun Hospital (屯門醫院)"),
   ("100", "Siu Hong (兆康)"),
   ("110", "Kei Lun (麒麟)"),
   ("120", "Ching Chung (青松)"),
   ("130", "Kin Sang (建生)"),
   ("140", "Tin King (田景)"),
   ("150", "Leung King (良景)"),
   ("160", "San Wai (新圍)"),
   ("170", "Shek Pai (石排)"),
   ("180", "Shan King (North) (山景（北）)"),
   ("190", "Shan King (South) (山景（南）)"),
   ("200", "Ming Kum (鳴琴)"),
   ("212", "Tai Hing (North) (大興（北）)"),
   ("220", "Tai Hing (South) (大興（南）)"),
   ("230", "Ngan Wai (銀圍)"),
   ("240", "Siu Hei (兆禧)"),
   ("250", "Tuen Mun Swimming Pool (屯門泳池)"),
   ("260", "Goodview Garden (豐景園)"),
   ("265", "Siu Lun (兆麟)"),
   ("270", "On Ting (安定)"),
   ("275", "Yau Oi (友愛)"),
   ("280", "Town Centre (市中心)"),
   ("295", "Tuen Mun (屯門)"),
   ("300", "Pui To (杯渡)"),
   ("310", "Hoh Fuk Tong (何福堂)"),
   ("320", "San Hui (新墟)"),
   ("330", "Prime View (景峰)"),
   ("340", "Fung Tei (鳳地)"),
   ("350", "Lam Tei (藍地)"),
   ("360", "Nai Wai (泥圍)"),
   ("370", "Chung Uk Tsuen (鍾屋村)"),
   ("380", "Hung Shui Kiu (洪水橋)"),
   ("390", "Tong Fong Tsuen (塘坊村)"),
   ("400", "Ping Shan (屏山)"),
   ("425", "Hang Mei Tsuen (坑尾村)"),
   ("430", "Tin Shui Wai (天水圍)"),
   ("435", "Tin Tsz (天慈)"),
   ("445", "Tin Yiu (天耀)"),
   ("448", "Locwood (樂湖)"),
   ("450", "Tin Wu (天湖)"),
   ("455", "Ginza (銀座)"),
   ("460", "Tin Shui (天瑞)"),
   ("468", "Chung Fu (頌富)"),
   ("480", "Tin Fu (天富)"),
   ("490", "Chestwood (翠湖)"),
   ("500", "Tin Wing (天榮)"),
   ("510", "Tin Yuet (天悅)"),
   ("520", "Tin Sau (天秀)"),
   ("530", "Wetland Park (濕地公園)"),
   ("540", "Tin Heng (天恒)"),
   ("550", "Tin Yat (天逸)"),
   ("560", "Shui Pin Wai (水邊圍)"),
   ("570", "Fung Nin Road (豐年路)"),
   ("580", "Hong Lok Road (康樂路)"),
   ("590", "Tai Tong Road (大棠路)"),
   ("600", "Yuen Long (元朗)"),
   ("920", "Sam Shing (三聖)")]

/-- Accumulate the numeric value of a list of decimal digit characters. -/
def digitsToNat : List Char → Nat → Nat
  | [], acc => acc
  | c :: cs, acc => digitsToNat cs (acc * 10 + (c.toNat - 48))

/-- Numeric value of an object key; every key of STATIONS is a canonical
decimal numeral. -/
def keyVal (s : String) : Nat :=
  digitsToNat s.data 0

/-- Insert an entry into a list sorted ascending by numeric key. -/
def insertEntry (x : String × String) : List (String × String) → List (String × String)
  | [] => [x]
  | y :: ys => if keyVal x.1 ≤ keyVal y.1 then x :: y :: ys else y :: insertEntry x ys

/-- JavaScript Object.entries on a record whose keys are all canonical
array-index strings: the entries come back ordered by ascending numeric
key value (ECMAScript integer-index ordering), regardless of insertion
order. -/
def objectEntries (m : List (String × String)) : List (String × String) :=
  m.foldr insertEntry []

/-- Whether the pattern occurs at the start of the text. -/
def startsWithChars : List Char → List Char → Bool
  | _, [] => true
  | [], _ :: _ => false
  | a :: as, b :: bs => a == b && startsWithChars as bs

/-- Whether the pattern occurs anywhere in the text. -/
def hasSub : List Char → List Char → Bool
  | [], pat => pat.isEmpty
  | a :: as, pat => startsWithChars (a :: as) pat || hasSub as pat

/-- JavaScript String.prototype.includes: substring containment. -/
def jsIncludes (s sub : String) : Bool :=
  hasSub s.data sub.data

/-- ASCII lowercasing of one character, as String.prototype.toLowerCase
acts on the characters appearing in the station table (ASCII letters are
lowered; CJK characters and punctuation are unchanged). -/
def jsCharToLower (c : Char) : Char :=
  if 65 ≤ c.toNat ∧ c.toNat ≤ 90 then Char.ofNat (c.toNat + 32) else c

/-- JavaScript String.prototype.toLowerCase over the characters of a
string. -/
def jsToLower (s : String) : List Char :=
  s.data.map jsCharToLower

/-- The filter predicate of filteredStations in the source:
name.toLowerCase().includes(lower) || name.includes(search) || id === search. -/
def matchesQuery (search : String) (e : String × String) : Bool :=
  hasSub (jsToLower e.2) (jsToLower search) || jsIncludes e.2 search || e.1 == search

/-- The filteredStations memo of the source: with an empty search text it
is Object.entries(STATIONS); otherwise the entries whose name matches
case-insensitively or verbatim, or whose id equals the search text. -/
def filteredStations (search : String) : List (String × String) :=
  if search = "" then objectEntries STATIONS
  else (objectEntries STATIONS).filter (matchesQuery search)

/-- The record lookup STATIONS[selectedId] of the source; undefined when
the id is not a key. -/
def lookupStation (id : String) : Option String :=
  ((objectEntries STATIONS).find? (fun e => e.1 == id)).map (fun e => e.2)

/-- The rendered item for one route entry: the three conditional CSS
marks of the route-item element (coupled when train_length is 2, arriving
when time_en is the literal dash, stopped when stop is 1), the displayed
texts, and the consist-length label (Single when train_length is 1, else
Coupled), exactly as the JSX of the source computes them. -/
structure RouteItemView where
  coupledMark : Bool
  arrivingMark : Bool
  stoppedMark : Bool
  route_no : String
  dest_en : String
  dest_ch : String
  time_en : String
  time_ch : String
  lengthLabel : String
deriving DecidableEq, Repr

/-- The routes section of a platform card: either the fallback message
(route_list absent or empty) or the list of rendered route items. -/
inductive RoutesView where
  | noRoutesMessage : RoutesView
  | items : List RouteItemView → RoutesView
deriving DecidableEq, Repr

/-- One rendered platform card. -/
structure PlatformCard where
  platform_id : Int
  routes : RoutesView
deriving DecidableEq, Repr

/-- The platforms section: either the fallback paragraph (platform_list
absent or empty) or the list of platform cards. -/
inductive PlatformsView where
  | noPlatformsMessage : PlatformsView
  | cards : List PlatformCard → PlatformsView
deriving DecidableEq, Repr

/-- The main section of the page: the no-data paragraph, or a schedule
view with the station title (STATIONS[selectedId], possibly undefined),
the platforms section, and the timestamp whose local-time formatting is
shown (none when system_time is the empty string, in which case the
update line is empty). -/
inductive MainView where
  | noData : MainView
  | schedule : Option String → PlatformsView → Option String → MainView
deriving DecidableEq, Repr

/-- Rendering of one route entry, following the JSX of the source. -/
def renderRoute (r : Route) : RouteItemView :=
  { coupledMark := r.train_length == 2
    arrivingMark := r.time_en == "-"
    stoppedMark := r.stop == 1
    route_no := r.route_no
    dest_en := r.dest_en
    dest_ch := r.dest_ch
    time_en := r.time_en
    time_ch := r.time_ch
    lengthLabel := if r.train_length == 1 then "Single" else "Coupled" }

/-- Rendering of one platform: route_list?.length is falsy both when the
field is absent and when the list is empty, so both show the fallback
message. -/
def renderPlatform (p : Platform) : PlatformCard :=
  { platform_id := p.platform_id
    routes :=
      match p.route_list with
      | some (r :: rs) => RoutesView.items ((r :: rs).map renderRoute)
      | _ => RoutesView.noRoutesMessage }

/-- Rendering of the platforms section: platform_list?.length is falsy
both when the field is absent and when the list is empty. -/
def renderPlatformList : Option (List Platform) → PlatformsView
  | some (p :: ps) => PlatformsView.cards ((p :: ps).map renderPlatform)
  | _ => PlatformsView.noPlatformsMessage

/-- Rendering of the main section: data && data.status === 1 selects the
schedule view, anything else shows the no-data paragraph. -/
def renderMain (selectedId : String) (data : Option ApiResponse) : MainView :=
  match data with
  | some d =>
      if d.status == 1 then
        MainView.schedule (lookupStation selectedId) (renderPlatformList d.platform_list)
          (if d.system_time == "" then none else some d.system_time)
      else MainView.noData
  | none => MainView.noData

/-- The state held by the App component (the four useState hooks) together
with the effect machinery of the single useEffect: the armed interval
carrying the selectedId value captured when it was armed, whether the view
is mounted, and the tags of the in-flight fetches in issue order
(fetchData never cancels a request, so completions of any pending tag can
arrive in any order). -/
structure AppState where
  search : String
  selectedId : String
  data : Option ApiResponse
  loading : Bool
  timer : Option String
  mounted : Bool
  pending : List String
deriving DecidableEq, Repr

/-- The initial values of the four useState hooks, before the mount effect
has run: empty search text, selected station 600 (Yuen Long), no snapshot,
not loading, no interval armed, no request in flight. -/
def initialState : AppState :=
  { search := "", selectedId := "600", data := none, loading := false,
    timer := none, mounted := false, pending := [] }

/-- The events the view reacts to: the mount effect, typing in the search
box, clicking a dropdown entry, an interval tick, resolution or rejection
of an in-flight request, and unmount. -/
inductive Ev where
  | mount : Ev
  | setSearch : String → Ev
  | selectStation : String → Ev
  | tick : Ev
  | resolve : String → ApiResponse → Ev
  | reject : String → String → Ev
  | unmount : Ev
deriving DecidableEq, Repr

/-- The outcome of handling one event: the next state, the station ids for
which an HTTP request was issued during the event, and the message passed
to console.error, if any. -/
structure StepOut where
  state : AppState
  fetches : List String
  logged : Option String
deriving DecidableEq, Repr

/-- The synchronous prefix of fetchData(id): setLoading(true) and the
request going out (the function then suspends at the await). -/
def beginFetch (s : AppState) (id : String) : AppState :=
  { s with loading := true, pending := s.pending ++ [id] }

/-- One step of the event loop. The mount effect calls
fetchData(selectedId) and arms the interval, whose callback closes over
the selectedId value current at arming time. Clicking a dropdown entry
sets the selected id and clears the search text; when the id actually
changed, the effect cleanup clears the old interval and the effect re-runs
(fetch for the new id, new interval capturing the new id); selecting the
id already selected leaves the dependency unchanged, so the effect does
not re-run. A tick calls fetchData with the captured id of the armed
interval. Await resumption of fetchData runs setData(res.data)
unconditionally on success (no check that the tag still matches the
currently selected station) or console.error(err) and setData(null) on
failure, and setLoading(false) in both cases. Unmount runs the effect
cleanup, clearing the interval. -/
def step (s : AppState) : Ev → StepOut
  | Ev.mount =>
      { state := { beginFetch s s.selectedId with mounted := true, timer := some s.selectedId }
        fetches := [s.selectedId], logged := none }
  | Ev.setSearch q => { state := { s with search := q }, fetches := [], logged := none }
  | Ev.selectStation id =>
      if s.mounted = false then { state := s, fetches := [], logged := none }
      else if id == s.selectedId then
        { state := { s with search := "" }, fetches := [], logged := none }
      else
        { state := { beginFetch { s with selectedId := id, search := "" } id with timer := some id }
          fetches := [id], logged := none }
  | Ev.tick =>
      match s.timer with
      | some c => { state := beginFetch s c, fetches := [c], logged := none }
      | none => { state := s, fetches := [], logged := none }
  | Ev.resolve id resp =>
      if s.pending.contains id then
        { state := { s with data := some resp, loading := false, pending := s.pending.erase id }
          fetches := [], logged := none }
      else { state := s, fetches := [], logged := none }
  | Ev.reject id err =>
      if s.pending.contains id then
        { state := { s with data := none, loading := false, pending := s.pending.erase id }
          fetches := [], logged := some err }
      else { state := s, fetches := [], logged := none }
  | Ev.unmount =>
      { state := { s with timer := none, mounted := false }, fetches := [], logged := none }

/-- Run a list of events from a state, keeping the final state. -/
def run (s : AppState) : List Ev → AppState
  | [] => s
  | e :: es => run (step s e).state es

/-- Run a list of events from a state, keeping the final state and every
message logged along the way. -/
def runLogs (s : AppState) : List Ev → AppState × List String
  | [] => (s, [])
  | e :: es =>
      let o := step s e
      let r := runLogs o.state es
      (r.1, o.logged.toList ++ r.2)

/-- Invariant of the effect machinery: whenever an interval is armed, the
selectedId it captured at arming time equals the currently selected id,
and the view is mounted. -/
def timerInv (s : AppState) : Prop :=
  ∀ c, s.timer = some c → c = s.selectedId ∧ s.mounted = true

theorem timerInv_initial : timerInv initialState := by
  intro c hc
  simp [initialState] at hc

theorem timerInv_step (s : AppState) (e : Ev) (h : timerInv s) :
    timerInv (step s e).state := by
  intro c hc
  cases e with
  | mount =>
      simp [step, beginFetch] at hc ⊢
      simp [hc]
  | setSearch q =>
      simp [step] at hc ⊢
      exact h c hc
  | selectStation id =>
      by_cases hm : s.mounted = false
      · simp [step, hm] at hc ⊢
        exact absurd (h c hc).2 (by simp [hm])
      · have hm' : s.mounted = true := by simpa using hm
        by_cases hid : id = s.selectedId
        · simp [step, hm, hid] at hc ⊢
          exact (h c hc).1
        · simp [step, hm, hid, beginFetch] at hc ⊢
          simp [hc]
  | tick =>
      cases ht : s.timer with
      | none =>
          simp [step, ht] at hc
      | some c0 =>
          simp [step, ht, beginFetch] at hc ⊢
          subst hc
          exact h c0 ht
  | resolve id resp =>
      by_cases hp : id ∈ s.pending
      · simp [step, hp] at hc ⊢
        exact h c hc
      · simp [step, hp] at hc ⊢
        exact h c hc
  | reject id err =>
      by_cases hp : id ∈ s.pending
      · simp [step, hp] at hc ⊢
        exact h c hc
      · simp [step, hp] at hc ⊢
        exact h c hc
  | unmount =>
      simp [step] at hc

theorem timerInv_run (s : AppState) (evs : List Ev) (h : timerInv s) :
    timerInv (run s evs) := by
  induction evs generalizing s with
  | nil => exact h
  | cons e es ih => exact ih _ (timerInv_step s e h)

/-- Invariant of the loading flag: when the spinner condition holds, some
request is in flight. -/
def loadingInv (s : AppState) : Prop :=
  s.loading = true → s.pending ≠ []

theorem loadingInv_initial : loadingInv initialState := by
  intro hl
  simp [initialState] at hl

theorem loadingInv_step (s : AppState) (e : Ev) (h : loadingInv s) :
    loadingInv (step s e).state := by
  intro hl
  cases e with
  | mount => simp [step, beginFetch]
  | setSearch q =>
      simp [step] at hl ⊢
      exact h hl
  | selectStation id =>
      by_cases hm : s.mounted = false
      · simp [step, hm] at hl ⊢
        exact h hl
      · by_cases hid : id = s.selectedId
        · simp [step, hm, hid] at hl ⊢
          exact h hl
        · simp [step, hm, hid, beginFetch]
  | tick =>
      cases ht : s.timer with
      | none =>
          simp [step, ht] at hl ⊢
          exact h hl
      | some c0 =>
          simp [step, ht, beginFetch]
  | resolve id resp =>
      by_cases hp : id ∈ s.pending
      · simp [step, hp] at hl
      · simp [step, hp] at hl ⊢
        exact h hl
  | reject id err =>
      by_cases hp : id ∈ s.pending
      · simp [step, hp] at hl
      · simp [step, hp] at hl ⊢
        exact h hl
  | unmount =>
      simp [step] at hl ⊢
      exact h hl

theorem loadingInv_run (s : AppState) (evs : List Ev) (h : loadingInv s) :
    loadingInv (run s evs) := by
  induction evs generalizing s with
  | nil => exact h
  | cons e es ih => exact ih _ (loadingInv_step s e h)

/-- A sample route entry of a schedule payload for station 600. -/
def routeTo1 : Route :=
  { train_length := 2, arrival_departure := "A", dest_en := "Tuen Mun Ferry Pier",
    dest_ch := "屯門碼頭", time_en := "5", time_ch := "5 分鐘",
    route_no := "610", stop := 0 }

/-- A sample success payload for station 600 (Yuen Long). -/
def resp600 : ApiResponse :=
  { status := 1, system_time := "10:00:00",
    platform_list := some [Platform.mk 1 (some [routeTo1])] }

/-- A sample route entry of a schedule payload for station 1. -/
def routeTo600 : Route :=
  { train_length := 1, arrival_departure := "D", dest_en := "Yuen Long",
    dest_ch := "元朗", time_en := "3", time_ch := "3 分鐘",
    route_no := "610", stop := 1 }

/-- A sample success payload for station 1 (Tuen Mun Ferry Pier). -/
def resp1 : ApiResponse :=
  { status := 1, system_time := "10:00:05",
    platform_list := some [Platform.mk 1 (some [routeTo600])] }

/-- A route entry whose train length is neither 1 nor 2; the upstream field
is an unvalidated number, so such a value can reach the renderer. -/
def routeLen3 : Route :=
  { train_length := 3, arrival_departure := "D", dest_en := "Yuen Long",
    dest_ch := "元朗", time_en := "8", time_ch := "8 分鐘",
    route_no := "615", stop := 0 }

/-- C1: the claimed guard is absent from the code. In the interleaving
where station 1 is selected while the fetch for 600 is still pending and
the fetch for 1 resolves first, the late resolution for 600 runs setData
unconditionally (fetchData carries no tag check against the currently
selected id), so the stale 600 payload overwrites the newer one: the final
state has selected station 1 but holds and displays the schedule payload
fetched for station 600, and the two payloads render differently. -/
theorem C1_stale_fetch_overwrites :
    (run initialState [Ev.mount, Ev.setSearch "Tuen", Ev.selectStation "1",
        Ev.resolve "1" resp1, Ev.resolve "600" resp600]).selectedId = "1"
    ∧ (run initialState [Ev.mount, Ev.setSearch "Tuen", Ev.selectStation "1",
        Ev.resolve "1" resp1, Ev.resolve "600" resp600]).data = some resp600
    ∧ resp600 ≠ resp1
    ∧ renderMain "1" (some resp600) ≠ renderMain "1" (some resp1) := by
  refine ⟨by decide, by decide, by decide, by decide⟩

/-- C2: an absent platform_list renders exactly as an empty platform list
(no error, no propagation of the absent value), an absent route_list on a
platform renders exactly as an empty route list, a platform with absent
route_list yields a card with the empty-routes message, and the sibling
platforms around it are rendered unchanged, elementwise. -/
theorem C2_absent_lists_normalized (sid t : String) (st pid : Int)
    (ps1 ps2 : List Platform) :
    renderMain sid (some ⟨st, t, none⟩) = renderMain sid (some ⟨st, t, some []⟩)
    ∧ renderPlatform ⟨pid, none⟩ = renderPlatform ⟨pid, some []⟩
    ∧ renderPlatformList (some (ps1 ++ ⟨pid, none⟩ :: ps2))
        = PlatformsView.cards
            (ps1.map renderPlatform ++
              PlatformCard.mk pid RoutesView.noRoutesMessage :: ps2.map renderPlatform)
    ∧ renderMain sid (some ⟨st, t, some (ps1 ++ ⟨pid, none⟩ :: ps2)⟩)
        = renderMain sid (some ⟨st, t, some (ps1 ++ ⟨pid, some []⟩ :: ps2)⟩) := by
  refine ⟨?_, rfl, ?_, ?_⟩
  · cases h : (st == 1) <;> simp [renderMain, renderPlatformList, h]
  · cases ps1 with
    | nil => simp [renderPlatformList, renderPlatform]
    | cons a as => simp [renderPlatformList, renderPlatform, List.map_append]
  · cases h : (st == 1) with
    | false => simp [renderMain, h]
    | true =>
        simp [renderMain, h]
        cases ps1 with
        | nil => simp [renderPlatformList, renderPlatform]
        | cons a as => simp [renderPlatformList, renderPlatform, List.map_append]

/-- C3 counterexample: a resolved response with a non-success status (the
DataUnavailable case) leaves the payload stored in state instead of
clearing the snapshot to absent, and logs nothing, although the generic
no-data paragraph is rendered; moreover a success response whose platform
list is empty, which the claim also counts as DataUnavailable, is not
rendered as the generic no-data paragraph at all. -/
theorem C3_counterexample_status_zero :
    (runLogs initialState [Ev.mount, Ev.resolve "600" ⟨0, "09:00:00", none⟩]).1.data
      = some ⟨0, "09:00:00", none⟩
    ∧ (runLogs initialState [Ev.mount, Ev.resolve "600" ⟨0, "09:00:00", none⟩]).1.data ≠ none
    ∧ (runLogs initialState [Ev.mount, Ev.resolve "600" ⟨0, "09:00:00", none⟩]).2 = []
    ∧ renderMain "600" (some ⟨0, "09:00:00", none⟩) = MainView.noData
    ∧ renderMain "600" (some ⟨1, "09:00:00", some []⟩) ≠ MainView.noData := by
  refine ⟨by decide, by decide, by decide, by decide, by decide⟩

/-- C3 amended: a rejected fetch (TransportError) clears the snapshot to
absent, logs the cause, and the view renders the generic no-data
paragraph; a resolved fetch whose status is not the success code
(DataUnavailable) stores the payload in state without logging anything,
and the view renders the same generic no-data paragraph; neither path
throws past the handler. -/
theorem C3_amended_error_handling (s : AppState) (id err : String) (resp : ApiResponse)
    (hp : id ∈ s.pending) :
    ((step s (Ev.reject id err)).state.data = none
      ∧ (step s (Ev.reject id err)).logged = some err
      ∧ renderMain (step s (Ev.reject id err)).state.selectedId
          (step s (Ev.reject id err)).state.data = MainView.noData)
    ∧ (resp.status ≠ 1 →
        (step s (Ev.resolve id resp)).state.data = some resp
        ∧ (step s (Ev.resolve id resp)).logged = none
        ∧ renderMain (step s (Ev.resolve id resp)).state.selectedId
            (step s (Ev.resolve id resp)).state.data = MainView.noData) := by
  constructor
  · simp [step, hp, renderMain]
  · intro hst
    simp [step, hp, renderMain]
    intro habs
    exact absurd habs hst

theorem C3_amended_error_handling_witness :
    (step { initialState with pending := ["600"] } (Ev.reject "600" "Network Error")).state.data = none
    ∧ (step { initialState with pending := ["600"] } (Ev.reject "600" "Network Error")).logged
        = some "Network Error"
    ∧ (step { initialState with pending := ["600"] } (Ev.resolve "600" ⟨0, "t", none⟩)).state.data
        = some ⟨0, "t", none⟩
    ∧ renderMain
        (step { initialState with pending := ["600"] } (Ev.resolve "600" ⟨0, "t", none⟩)).state.selectedId
        (step { initialState with pending := ["600"] } (Ev.resolve "600" ⟨0, "t", none⟩)).state.data
        = MainView.noData := by
  have h := C3_amended_error_handling { initialState with pending := ["600"] }
    "600" "Network Error" ⟨0, "t", none⟩ (by decide)
  have h2 := h.2 (by decide)
  exact ⟨h.1.1, h.1.2.1, h2.1, h2.2.2⟩

/-- C4: after any sequence of events from the initial state, a tick of the
armed interval fetches either nothing or exactly the currently selected
station id, because the effect clears and re-arms the interval on every
selection change, so the captured id always equals the current selection;
and once the view is unmounted the cleanup has cleared the interval, so a
tick issues no fetch at all. -/
theorem C4_timer_current_id (evs : List Ev) :
    ((step (run initialState evs) Ev.tick).fetches = []
      ∨ (step (run initialState evs) Ev.tick).fetches = [(run initialState evs).selectedId])
    ∧ ((run initialState evs).mounted = false →
        (step (run initialState evs) Ev.tick).fetches = []) := by
  have h := timerInv_run initialState evs timerInv_initial
  constructor
  · cases ht : (run initialState evs).timer with
    | none => left; simp [step, ht]
    | some c =>
        right
        simp [step, ht]
        exact (h c ht).1
  · intro hm
    cases ht : (run initialState evs).timer with
    | none => simp [step, ht]
    | some c => exact absurd (h c ht).2 (by simp [hm])

theorem C4_timer_current_id_witness :
    (run initialState [Ev.mount, Ev.setSearch "yuen", Ev.selectStation "1", Ev.unmount]).mounted = false
    ∧ (step (run initialState [Ev.mount, Ev.setSearch "yuen", Ev.selectStation "1", Ev.unmount])
        Ev.tick).fetches = [] := by
  refine ⟨by decide, ?_⟩
  exact (C4_timer_current_id [Ev.mount, Ev.setSearch "yuen", Ev.selectStation "1", Ev.unmount]).2
    (by decide)

/-- C5 counterexample: the raw id 600 contains the query 60 as a
substring, and the station with id 600 is in the directory, yet the search
for 60 does not return it, because the code compares ids only for exact
equality; the result is exactly the station with id 60. -/
theorem C5_counterexample_id_substring :
    jsIncludes "600" "60" = true
    ∧ ("600", "Yuen Long (元朗)") ∈ objectEntries STATIONS
    ∧ ("600", "Yuen Long (元朗)") ∉ filteredStations "60"
    ∧ filteredStations "60" = [("60", "Kin On (建安)")] := by
  refine ⟨by decide, by decide, by decide, by decide⟩

/-- C5 amended: a station is returned for a nonempty query exactly when
its display name contains the query case-insensitively or verbatim, or
its id equals the query exactly (substring matches on the id are not
included); the empty query returns every station. In particular the
search for 600 returns exactly the station with id 600, and the searches
for Yuen Long and for 元朗 both include it. -/
theorem C5_amended_search_characterization :
    filteredStations "600" = [("600", "Yuen Long (元朗)")]
    ∧ ("600", "Yuen Long (元朗)") ∈ filteredStations "Yuen Long"
    ∧ ("600", "Yuen Long (元朗)") ∈ filteredStations "元朗"
    ∧ ∀ q st, st ∈ filteredStations q ↔
        st ∈ objectEntries STATIONS ∧ (q = "" ∨ matchesQuery q st = true) := by
  refine ⟨by decide, by decide, by decide, ?_⟩
  intro q st
  by_cases hq : q = ""
  · subst hq
    simp [filteredStations]
  · simp [filteredStations, hq, List.mem_filter]

/-- C6: search with the empty query returns all stations in stable
insertion order: Object.entries of the station record orders the
integer-like keys by numeric value, and on this table the numeric order
coincides with the order in which the entries are written, so the result
is exactly the table. -/
theorem C6_empty_query_insertion_order :
    filteredStations "" = STATIONS ∧ objectEntries STATIONS = STATIONS := by
  exact ⟨by decide, by decide⟩

/-- C7 counterexample: a route entry with train length 3 is not marked
coupled, yet its consist label reads Coupled, not Single, contradicting
the claim that any train length other than 2 is marked single. -/
theorem C7_counterexample_length_three :
    (renderRoute routeLen3).coupledMark = false
    ∧ (renderRoute routeLen3).lengthLabel = "Coupled"
    ∧ (renderRoute routeLen3).lengthLabel ≠ "Single" := by
  refine ⟨by decide, by decide, by decide⟩

/-- C7 amended: in a rendered success snapshot every route entry of every
platform appears as a rendered item whose arriving mark holds exactly
when time_en is the literal dash, whose stopped mark holds exactly when
stop is 1, whose coupled mark holds exactly when train_length is 2, and
whose consist label reads Single exactly when train_length is 1 and
Coupled for every other length. -/
theorem C7_amended_route_marks (sid t : String) (ps : List Platform)
    (p : Platform) (rl : List Route) (r : Route)
    (hp : p ∈ ps) (hrl : p.route_list = some rl) (hr : r ∈ rl) :
    (∃ upd, renderMain sid (some ⟨1, t, some ps⟩)
        = MainView.schedule (lookupStation sid)
            (PlatformsView.cards (ps.map renderPlatform)) upd)
    ∧ renderPlatform p ∈ ps.map renderPlatform
    ∧ (renderPlatform p).routes = RoutesView.items (rl.map renderRoute)
    ∧ renderRoute r ∈ rl.map renderRoute
    ∧ ((renderRoute r).arrivingMark = true ↔ r.time_en = "-")
    ∧ ((renderRoute r).stoppedMark = true ↔ r.stop = 1)
    ∧ ((renderRoute r).coupledMark = true ↔ r.train_length = 2)
    ∧ ((renderRoute r).lengthLabel = "Single" ↔ r.train_length = 1)
    ∧ ((renderRoute r).lengthLabel = "Coupled" ↔ r.train_length ≠ 1) := by
  refine ⟨?_, List.mem_map_of_mem _ hp, ?_, List.mem_map_of_mem _ hr, ?_, ?_, ?_, ?_, ?_⟩
  · refine ⟨if t == "" then none else some t, ?_⟩
    cases ps with
    | nil => exact absurd hp (List.not_mem_nil p)
    | cons a as => simp [renderMain, renderPlatformList]
  · cases rl with
    | nil => exact absurd hr (List.not_mem_nil r)
    | cons r0 rs => simp [renderPlatform, hrl]
  · simp [renderRoute]
  · simp [renderRoute]
  · simp [renderRoute]
  · simp [renderRoute]
  · simp [renderRoute]

theorem C7_amended_route_marks_witness :
    (renderPlatform (Platform.mk 1 (some [routeTo600]))).routes
        = RoutesView.items [renderRoute routeTo600]
    ∧ ((renderRoute routeTo600).stoppedMark = true ↔ routeTo600.stop = 1)
    ∧ ((renderRoute routeTo600).lengthLabel = "Single" ↔ routeTo600.train_length = 1) := by
  have h := C7_amended_route_marks "600" "10:00:05" [Platform.mk 1 (some [routeTo600])]
    (Platform.mk 1 (some [routeTo600])) [routeTo600] routeTo600
    (by decide) (by decide) (by decide)
  exact ⟨by simpa using h.2.2.1, h.2.2.2.2.2.1, h.2.2.2.2.2.2.2.1⟩

/-- C8: resolving a fetch with an identical payload from two states with
the same selected station yields states whose main sections render
identically: the rendered snapshot view depends only on the payload and
the selected id, not on the prior snapshot or loading state, so two
fetches of the same station with identical upstream data render the
same. -/
theorem C8_render_deterministic (s1 s2 : AppState) (id : String) (resp : ApiResponse)
    (hsel : s1.selectedId = s2.selectedId)
    (h1 : id ∈ s1.pending) (h2 : id ∈ s2.pending) :
    renderMain (step s1 (Ev.resolve id resp)).state.selectedId
        (step s1 (Ev.resolve id resp)).state.data
      = renderMain (step s2 (Ev.resolve id resp)).state.selectedId
          (step s2 (Ev.resolve id resp)).state.data := by
  simp [step, h1, h2, hsel]

theorem C8_render_deterministic_witness :
    renderMain
        (step { initialState with pending := ["600"] } (Ev.resolve "600" resp600)).state.selectedId
        (step { initialState with pending := ["600"] } (Ev.resolve "600" resp600)).state.data
      = renderMain
          (step { initialState with data := some resp1, loading := true, pending := ["600", "1"] }
            (Ev.resolve "600" resp600)).state.selectedId
          (step { initialState with data := some resp1, loading := true, pending := ["600", "1"] }
            (Ev.resolve "600" resp600)).state.data :=
  C8_render_deterministic { initialState with pending := ["600"] }
    { initialState with data := some resp1, loading := true, pending := ["600", "1"] }
    "600" resp600 rfl (by decide) (by decide)

/-- C9: the initial hook values are an empty search text, selected id 600
whose directory entry is Yuen Long, no snapshot, and not loading; before
the mount effect runs no interval is armed and a tick fetches nothing,
and the mount effect immediately issues the fetch for 600, arming the
interval only then. -/
theorem C9_initial_state_and_mount :
    initialState.search = "" ∧ initialState.selectedId = "600"
    ∧ lookupStation "600" = some "Yuen Long (元朗)"
    ∧ initialState.data = none ∧ initialState.loading = false
    ∧ initialState.timer = none
    ∧ (step initialState Ev.tick).fetches = []
    ∧ (step initialState Ev.mount).fetches = ["600"]
    ∧ (step initialState Ev.mount).state.timer = some "600"
    ∧ (step initialState Ev.mount).state.pending = ["600"] := by
  refine ⟨rfl, rfl, by decide, rfl, rfl, rfl, by decide, by decide, by decide, by decide⟩

/-- C10: starting a fetch sets the loading flag; completing a pending
fetch, whether by resolution or rejection, resets it to false; and in
every state reachable from the initial state the loading flag being true
implies that some fetch is still in flight, so the spinner can only be
shown while a fetch is in flight. -/
theorem C10_loading_flag (evs : List Ev) (t : AppState) (id0 id : String)
    (resp : ApiResponse) (err : String) :
    (beginFetch t id0).loading = true
    ∧ (id ∈ (run initialState evs).pending →
        (step (run initialState evs) (Ev.resolve id resp)).state.loading = false
        ∧ (step (run initialState evs) (Ev.reject id err)).state.loading = false)
    ∧ ((run initialState evs).loading = true → (run initialState evs).pending ≠ []) := by
  refine ⟨rfl, ?_, loadingInv_run initialState evs loadingInv_initial⟩
  intro hp
  constructor <;> simp [step, hp]

theorem C10_loading_flag_witness :
    (beginFetch initialState "600").loading = true
    ∧ (step (run initialState [Ev.mount]) (Ev.resolve "600" resp600)).state.loading = false := by
  have h := C10_loading_flag [Ev.mount] initialState "600" "600" resp600 "e"
  exact ⟨h.1, (h.2.1 (by decide)).1⟩

end LrtApp
